import Mathlib

/-!
Verification of the parallel multilingual dubbing pipeline of
`multilang_fast_parallel.py` (with the advisory speed-up display of
`gui_app_v1.py`).  Durations and wall-clock times are embedded as rationals;
the outcomes of external calls (gTTS, ffprobe, ffmpeg, the worker pools) are
explicit environment records, and the nondeterministic completion order of
`as_completed` loops is an explicit list parameter.
-/

/-- One entry of `LANGUAGE_CONFIG`: display name, emoji and gTTS code. -/
structure LangInfo where
  name : String
  emoji : String
  gtts_code : String
deriving DecidableEq

/-- The 16-entry language table `LANGUAGE_CONFIG` of the source. -/
def LANGUAGE_CONFIG : List (String × LangInfo) :=
  [("zh", ⟨"中文", "🇨🇳", "zh-CN"⟩),
   ("en", ⟨"英语", "🇺🇸", "en"⟩),
   ("ja", ⟨"日语", "🇯🇵", "ja"⟩),
   ("ko", ⟨"韩语", "🇰🇷", "ko"⟩),
   ("fr", ⟨"法语", "🇫🇷", "fr"⟩),
   ("de", ⟨"德语", "🇩🇪", "de"⟩),
   ("es", ⟨"西语", "🇪🇸", "es"⟩),
   ("pt", ⟨"葡语", "🇵🇹", "pt"⟩),
   ("ru", ⟨"俄语", "🇷🇺", "ru"⟩),
   ("ar", ⟨"阿拉伯语", "🇸🇦", "ar"⟩),
   ("hi", ⟨"印度语", "🇮🇳", "hi"⟩),
   ("th", ⟨"泰语", "🇹🇭", "th"⟩),
   ("vi", ⟨"越南语", "🇻🇳", "vi"⟩),
   ("it", ⟨"意大利语", "🇮🇹", "it"⟩),
   ("tr", ⟨"土耳其语", "🇹🇷", "tr"⟩),
   ("id", ⟨"印尼语", "🇮🇩", "id"⟩)]

/-- Lookup of `LANGUAGE_CONFIG[lang_code]`: `none` models a Python `KeyError`. -/
def lookupLang (code : String) : Option LangInfo :=
  (LANGUAGE_CONFIG.find? (fun p => p.1 == code)).map (fun p => p.2)

/-- One element of the ffmpeg audio-filter chains built by
`generate_segment_voice_fast`. -/
inductive AFilter where
  /-- Playback-rate change `atempo={r}`. -/
  | atempo (r : ℚ)
  /-- The explicit no-op filter `anull`, used when the rate change is skipped. -/
  | anull
  /-- Loudness normalization `loudnorm=I={i}:TP={tp}:LRA={lra}`. -/
  | loudnorm (i tp lra : ℚ)
  /-- Tail fade-out `afade=t=out:st={st}:d={d}`. -/
  | afadeOut (st d : ℚ)
deriving DecidableEq

/-- The fixed normalization constants `loudnorm=I=-16:TP=-1.5:LRA=11` used at
every normalization point of the source. -/
def loudnormFilter : AFilter := AFilter.loudnorm (-16) (-3/2) 11

/-- The three shapes of ffmpeg command `generate_segment_voice_fast` can issue
after probing: trim (`-af` chain plus `-t target`), pad (a `filter_complex`
that concatenates trailing silence of the given length), or plain `-af`. -/
inductive SynthCmd where
  | trimCmd (filters : List AFilter) (tLimit : ℚ)
  | padCmd (filters : List AFilter) (silence : ℚ)
  | fitCmd (filters : List AFilter)
deriving DecidableEq

/-- Clamp from line 101: `max(speed_limit[0], min(speed_ratio, speed_limit[1]))`. -/
def clampRatio (lo hi x : ℚ) : ℚ := max lo (min x hi)

/-- Lines 104-107: `atempo={speed_ratio}` when `abs(speed_ratio - 1.0) > 0.05`,
otherwise the no-op `anull`. -/
def atempoOrAnull (r : ℚ) : AFilter :=
  if 1/20 < |r - 1| then AFilter.atempo r else AFilter.anull

/-- The deterministic command-planning core of `generate_segment_voice_fast`
(lines 99-133): given the probed natural duration and the target duration it
clamps the speed ratio, computes the adjusted duration
`natural / clampRatio lo hi (natural / target)`, and picks the trim, pad or
fit command.  The conditions are written as the source writes them:
`adjusted > target + 0.1` and `adjusted < target - 0.1`. -/
def buildSynthCmd (natural target lo hi : ℚ) : SynthCmd :=
  if target + 1/10 < natural / clampRatio lo hi (natural / target) then
    SynthCmd.trimCmd
      [atempoOrAnull (clampRatio lo hi (natural / target)), loudnormFilter,
       AFilter.afadeOut (max 0 (target - 1/10)) (1/10)] target
  else if natural / clampRatio lo hi (natural / target) < target - 1/10 then
    SynthCmd.padCmd
      [atempoOrAnull (clampRatio lo hi (natural / target)), loudnormFilter]
      (target - natural / clampRatio lo hi (natural / target))
  else
    SynthCmd.fitCmd
      (if atempoOrAnull (clampRatio lo hi (natural / target)) = AFilter.anull then
        [loudnormFilter]
      else
        [atempoOrAnull (clampRatio lo hi (natural / target)), loudnormFilter])

/-- Environment for one call of `generate_segment_voice_fast`: outcomes of the
external steps.  `ttsOk = false` models an exception inside `tts.save` (before
the intermediate file exists); `probe = Except.error ()` models an exception
while running ffprobe or parsing its output as a float, after the intermediate
file was written; `ffmpegRaises` models an exception from the filter-graph
`subprocess.run`; `ffmpegExit` is the exit code of that run (the source never
reads it); `outputNonEmpty` is `os.path.exists(output_file) and
os.path.getsize(output_file) > 0`. -/
structure SynthEnv where
  ttsOk : Bool
  probe : Except Unit ℚ
  ffmpegRaises : Bool
  ffmpegExit : Int
  outputNonEmpty : Bool

/-- Observable outcome of `generate_segment_voice_fast`: the returned boolean,
whether the intermediate `_init.mp3` file was created, whether it still exists
when the function returns, and the ffmpeg command issued (if any). -/
structure SynthOutcome where
  success : Bool
  tempCreated : Bool
  tempLeft : Bool
  cmd : Option SynthCmd
deriving DecidableEq

/-- Model of `generate_segment_voice_fast` (lines 72-142).  The `except` handler at
line 140 returns `False` without removing `temp_initial`; the probe-zero path
(lines 95-97) and the normal path (line 136) do remove it. -/
def generate_segment_voice_fast (target lo hi : ℚ) (env : SynthEnv) : SynthOutcome :=
  if env.ttsOk then
    match env.probe with
    | Except.error _ => ⟨false, true, true, none⟩
    | Except.ok natural =>
      if natural = 0 then ⟨false, true, false, none⟩
      else if env.ffmpegRaises then
        ⟨false, true, true, some (buildSynthCmd natural target lo hi)⟩
      else
        ⟨env.outputNonEmpty, true, false, some (buildSynthCmd natural target lo hi)⟩
  else ⟨false, false, false, none⟩

/-- Python `int()` truncates toward zero; used for `int(start_time * 1000)`. -/
def intTrunc (x : ℚ) : Int := if 0 ≤ x then ⌊x⌋ else ⌈x⌉

/-- The single ffmpeg invocation built by `merge_audio_segments_fast`: one
input per clip, an `adelay` per clip (millisecond precision), `-t` truncation
to the total duration. -/
structure MixCmd where
  numInputs : Nat
  delaysMs : List Int
  tLimit : ℚ
deriving DecidableEq

/-- Environment for `merge_audio_segments_fast`: `exitOk` is
`result.returncode == 0`, `outExists` is `os.path.exists(output_audio)`. -/
structure MixEnv where
  exitOk : Bool
  outExists : Bool
deriving DecidableEq

/-- Observable outcome of `merge_audio_segments_fast`: the returned boolean and
the ffmpeg command (`none` when the external tool was never invoked). -/
structure MixOutcome where
  success : Bool
  cmd : Option MixCmd
deriving DecidableEq

/-- Model of `merge_audio_segments_fast` (lines 145-193): an empty clip list returns
`False` at line 155-156 before any command is built; otherwise one ffmpeg run
happens and success is `returncode == 0 and os.path.exists(output_audio)`. -/
def merge_audio_segments_fast (segments_info : List (String × ℚ)) (total_duration : ℚ)
    (env : MixEnv) : MixOutcome :=
  if segments_info.isEmpty then ⟨false, none⟩
  else
    ⟨env.exitOk && env.outExists,
     some ⟨segments_info.length, segments_info.map (fun p => intTrunc (p.2 * 1000)), total_duration⟩⟩

/-- One parsed subtitle entry: raw text content and start/end offsets in
seconds (`sub.start.total_seconds()` / `sub.end.total_seconds()`). -/
structure SubEntry where
  content : String
  start : ℚ
  endTime : ℚ
deriving DecidableEq

/-- Python `str.strip()`: drop leading and trailing whitespace. -/
def pyStrip (s : String) : String :=
  String.mk (((s.data.dropWhile Char.isWhitespace).reverse.dropWhile Char.isWhitespace).reverse)

/-- Zero-padding of `f"seg_{i:03d}.mp3"`. -/
def pad3 (i : Nat) : String :=
  let s := toString i
  if s.length < 3 then String.mk (List.replicate (3 - s.length) '0') ++ s else s

/-- The per-segment clip path `os.path.join(temp_dir, f"seg_{i:03d}.mp3")`. -/
def segFileName (tempDir : String) (i : Nat) : String :=
  tempDir ++ "/seg_" ++ pad3 i ++ ".mp3"

/-- Indices of the subtitle entries actually submitted for synthesis: the loop
at lines 244-259 skips entries whose stripped text is empty. -/
def submittedIndices (subs : List SubEntry) : List Nat :=
  (List.range subs.length).filter (fun i => pyStrip (subs.getD i ⟨"", 0, 0⟩).content != "")

/-- The value of the Python variable `start_time` after the submission loop.
It is initialised to `time.time()` at line 207, but line 251 reassigns it to
`sub.start.total_seconds()` for every non-empty entry, so after the loop it
holds the start offset of the last non-empty subtitle (or the wall-clock start
when no entry is non-empty). -/
def finalStartTime (wallStart : ℚ) (subs : List SubEntry) : ℚ :=
  (subs.filter (fun s => pyStrip s.content != "")).foldl (fun _ s => s.start) wallStart

/-- The list `segments_info` as collected by the `as_completed` loop (lines 262-272),
in completion order `order` (a permutation of the submitted indices): an entry
is appended only when `future.result()` returns `True`; `False` results and
exceptions are only printed. -/
def collectSegments (tempDir : String) (subs : List SubEntry) (order : List Nat)
    (outcome : Nat → Except String Bool) : List (String × ℚ) :=
  order.foldl
    (fun acc i =>
      match outcome i with
      | Except.ok true => acc ++ [(segFileName tempDir i, (subs.getD i ⟨"", 0, 0⟩).start)]
      | _ => acc)
    []

/-- The result dictionary of `process_single_language` (lines 211-219 with the
updates made on each exit path). -/
structure JobResult where
  lang_code : String
  language : String
  success : Bool
  output_video : Option String
  output_srt : Option String
  duration : ℚ
  error : Option String
deriving DecidableEq

/-- External invocations a Language Job can make, in program order. -/
inductive JobEvent where
  | synthSubmit (i : Nat)
  | mixCall
  | burnCall
  | muxCall
deriving DecidableEq

/-- Environment for one `process_single_language` run: wall-clock time at
entry and at the final `time.time()` call, the completion order and outcomes
of the intra-job synthesis futures, the mixer's subprocess outcome, and
whether `os.path.exists(output_video)` holds after the mux step. -/
structure JobEnv where
  wallStart : ℚ
  wallEnd : ℚ
  segOrder : List Nat
  segOutcome : Nat → Except String Bool
  mixEnv : MixEnv
  videoExists : Bool

/-- Model of `process_single_language` (lines 200-354).  `subs` is the parsed content
of `srt_file`; an unknown language code raises `KeyError` at line 208, outside
the `try` block, modelled as `Except.error`.  Each exit path returns the final
state of the result dictionary together with the list of external invocations
made.  Note line 340 computes `duration` as `time.time() - start_time` with
the shadowed `start_time` (see `finalStartTime`). -/
def process_single_language (video_file lang_code : String) (subs : List SubEntry)
    (output_dir : String) (video_duration : ℚ) (env : JobEnv) :
    Except String (JobResult × List JobEvent) :=
  match lookupLang lang_code with
  | none => Except.error lang_code
  | some info =>
    if (collectSegments (output_dir ++ "/temp_" ++ lang_code) subs env.segOrder
        env.segOutcome).isEmpty then
      Except.ok (⟨lang_code, info.name, false, none, none, 0, some "没有成功生成任何语音段落"⟩,
        (submittedIndices subs).map JobEvent.synthSubmit)
    else if (merge_audio_segments_fast
        (collectSegments (output_dir ++ "/temp_" ++ lang_code) subs env.segOrder env.segOutcome)
        video_duration env.mixEnv).success then
      if env.videoExists then
        Except.ok (⟨lang_code, info.name, true,
            some (output_dir ++ "/output_" ++ lang_code ++ ".mp4"),
            some (output_dir ++ "/output_" ++ lang_code ++ ".srt"),
            env.wallEnd - finalStartTime env.wallStart subs, none⟩,
          (submittedIndices subs).map JobEvent.synthSubmit ++
            [JobEvent.mixCall, JobEvent.burnCall, JobEvent.muxCall])
      else
        Except.ok (⟨lang_code, info.name, false, none, none, 0, some "视频生成失败"⟩,
          (submittedIndices subs).map JobEvent.synthSubmit ++
            [JobEvent.mixCall, JobEvent.burnCall, JobEvent.muxCall])
    else
      Except.ok (⟨lang_code, info.name, false, none, none, 0, some "音频合并失败"⟩,
        (submittedIndices subs).map JobEvent.synthSubmit ++ [JobEvent.mixCall])

/-- The persisted `batch_report.json` dictionary (lines 459-465). -/
structure BatchReport where
  total_time : ℚ
  total_languages : Nat
  success_count : Nat
  max_workers : Nat
  results : List JobResult
deriving DecidableEq

/-- What `batch_process_parallel` produces on its normal path: the persisted
report plus the advisory speed-up figure printed when `max_workers > 1`. -/
structure BatchOutcome where
  report : BatchReport
  speedup : Option ℚ
deriving DecidableEq

/-- Environment for one `batch_process_parallel` run: `mp.cpu_count()`, the
completion order of the per-language futures (indices into the pair list) and
each future's `future.result()` outcome, and the measured batch wall time. -/
structure BatchEnv where
  cpuCount : Nat
  order : List Nat
  outcome : Nat → Except String JobResult
  totalTime : ℚ

/-- The `KeyError` site of the submission loop (lines 410-416): the first pair
whose language code is missing from `LANGUAGE_CONFIG`, scanning pairs in
submission order. -/
def firstMissingLang (pairs : List (String × String)) : Option String :=
  match pairs with
  | [] => none
  | (lang, _) :: rest =>
    match lookupLang lang with
    | none => some lang
    | some _ => firstMissingLang rest

/-- One iteration of the result-collection loop (lines 419-431) for the
future of pair index `i`: a normal `future.result()` is appended as-is; an
exception is caught and converted to a failure record carrying the exception
text (that record has no duration or output keys, i.e. duration 0 here). -/
def collectOne (pairs : List (String × String)) (outcome : Nat → Except String JobResult)
    (i : Nat) : JobResult :=
  match outcome i with
  | Except.ok r => r
  | Except.error e =>
    ⟨(pairs.getD i ("", "")).1,
     ((lookupLang (pairs.getD i ("", "")).1).map (fun x => x.name)).getD "",
     false, none, none, 0, some e⟩

/-- The `results` list accumulated by the collection loop, in completion
order. -/
def collectResults (pairs : List (String × String)) (order : List Nat)
    (outcome : Nat → Except String JobResult) : List JobResult :=
  order.map (collectOne pairs outcome)

/-- Line 446: `sum(r.get('duration', 0) for r in results if r['success'])`. -/
def sumSuccessDurations (results : List JobResult) : ℚ :=
  ((results.filter (fun r => r.success)).map (fun r => r.duration)).foldl (fun a d => a + d) 0

/-- The advisory speed-up printed at lines 445-448: only when
`max_workers > 1`, and equal to `sequential_time / total_time` when
`total_time > 0`, else `1`. -/
def speedupFigure (max_workers : Nat) (results : List JobResult) (total_time : ℚ) : Option ℚ :=
  if 1 < max_workers then
    some (if 0 < total_time then sumSuccessDurations results / total_time else 1)
  else none

/-- Model of `batch_process_parallel` (lines 384-474).  `max_workers = None`
defaults to `min(mp.cpu_count(), len(pairs), 4)`.  The submission loop looks
every language code up in `LANGUAGE_CONFIG`; the first missing code raises an
unhandled `KeyError` (`Except.error`), before any result is collected and
before the report file is written.  Otherwise all results are collected, the
success count and report are built, and the report is persisted; the report
value returned here is exactly the persisted `batch_report.json` content. -/
def batch_process_parallel (pairs : List (String × String)) (max_workers : Option Nat)
    (env : BatchEnv) : Except String BatchOutcome :=
  match firstMissingLang pairs with
  | some lang => Except.error lang
  | none =>
    Except.ok
      ⟨⟨env.totalTime, (collectResults pairs env.order env.outcome).length,
        ((collectResults pairs env.order env.outcome).filter (fun r => r.success)).length,
        max_workers.getD (min env.cpuCount (min pairs.length 4)),
        collectResults pairs env.order env.outcome⟩,
       speedupFigure (max_workers.getD (min env.cpuCount (min pairs.length 4)))
         (collectResults pairs env.order env.outcome) env.totalTime⟩

/-- The speed-up estimate as the spec's words describe it for the
orchestrator: `min(maxWorkers, languageCount) × 0.7`.  Stated for comparison
with the figure `batch_process_parallel` actually computes. -/
def specSpeedupEstimate (maxWorkers languageCount : Nat) : ℚ :=
  ((min maxWorkers languageCount : Nat) : ℚ) * (7/10)

/-- The advisory speed-up shown by the GUI layer,
`gui_app_v1.on_processing_finished` (lines 891-897):
`min(ideal * 0.7, ideal)` with `ideal = min(max_workers, total_count)` when
`max_workers > 1 and total_count > 1`, else `1`. -/
def guiSpeedup (max_workers total_count : Nat) : ℚ :=
  if 1 < max_workers ∧ 1 < total_count then
    min (((min max_workers total_count : Nat) : ℚ) * (7/10)) ((min max_workers total_count : Nat) : ℚ)
  else 1

/-- Concrete job environment in which the only submitted segment reports a
synthesis failure. -/
def jobEnvC4 : JobEnv := ⟨0, 10, [0], fun _ => Except.ok false, ⟨true, true⟩, true⟩

/-- Concrete job environment: the job enters at wall-clock 1000 and its final
`time.time()` reads 1010; every external step succeeds. -/
def jobEnvC7 : JobEnv := ⟨1000, 1010, [0], fun _ => Except.ok true, ⟨true, true⟩, true⟩

/-- Concrete one-language pair list. -/
def pairsC2 : List (String × String) := [("en", "a.srt")]

/-- Concrete successful job result for the English pair. -/
def resC2 : JobResult := ⟨"en", "英语", true, some "v.mp4", some "s.srt", 2, none⟩

/-- Concrete batch environment: 4 CPUs, one future completing normally, batch
wall time 5. -/
def batchEnvC2 : BatchEnv := ⟨4, [0], fun _ => Except.ok resC2, 5⟩

/-- The batch outcome `batch_process_parallel pairsC2 none batchEnvC2`
evaluates to. -/
def outC2 : BatchOutcome := ⟨⟨5, 1, 1, 1, [resC2]⟩, none⟩

/-- Concrete batch environment whose only future raises an exception. -/
def batchEnvC3 : BatchEnv := ⟨4, [0], fun _ => Except.error "boom", 1⟩

/-- Concrete two-language pair list. -/
def pairsC8 : List (String × String) := [("en", "a.srt"), ("ja", "b.srt")]

/-- Concrete successful English result with a 3-second job duration. -/
def resEnC8 : JobResult := ⟨"en", "英语", true, some "v1.mp4", some "s1.srt", 3, none⟩

/-- Concrete successful Japanese result with a 3-second job duration. -/
def resJaC8 : JobResult := ⟨"ja", "日语", true, some "v2.mp4", some "s2.srt", 3, none⟩

/-- Concrete batch environment: both futures succeed, batch wall time 2. -/
def batchEnvC8 : BatchEnv :=
  ⟨4, [0, 1], fun i => if i = 0 then Except.ok resEnC8 else Except.ok resJaC8, 2⟩

/-- The batch outcome `batch_process_parallel pairsC8 (some 2) batchEnvC8`
evaluates to: both languages succeed and the printed speed-up is
`(3 + 3) / 2 = 3` (the speed-up component is kept in unevaluated form). -/
def outC8 : BatchOutcome :=
  ⟨⟨2, 2, 2, 2, [resEnC8, resJaC8]⟩,
   speedupFigure 2 (collectResults pairsC8 batchEnvC8.order batchEnvC8.outcome)
     batchEnvC8.totalTime⟩

/-- Concrete batch environment whose collection oracles are never consulted. -/
def batchEnvC10 : BatchEnv := ⟨4, [], fun _ => Except.error "unused", 0⟩

/-- Concrete synthesis environment: filter run exits with code 1 but leaves a
non-empty output file. -/
def synthEnvC9 : SynthEnv := ⟨true, Except.ok 1, false, 1, true⟩

/-- C5: for every call of the Timeline Mixer with an empty clip set, whatever
the total duration and the outcomes of the environment, it returns a failure
and never builds or runs the external ffmpeg command (`cmd = none`). -/
theorem C5_mixer_empty_clip_set (total_duration : ℚ) (env : MixEnv) :
    merge_audio_segments_fast [] total_duration env = ⟨false, none⟩ := rfl

/-- C6 counterexample: the claim says the intermediate natural-rate file is
deleted before return on every exit path, including any exception raised
during probing; but when the probe (or its float parse) raises after
`tts.save` wrote the file, the `except` handler at line 140 returns `False`
without deleting it.  At this concrete input the file was created and is
still present at return. -/
theorem C6_temp_left_on_probe_exception :
    (generate_segment_voice_fast 1 (7/10) (3/2)
        ⟨true, Except.error (), false, 0, true⟩).tempCreated = true ∧
    (generate_segment_voice_fast 1 (7/10) (3/2)
        ⟨true, Except.error (), false, 0, true⟩).tempLeft = true ∧
    (generate_segment_voice_fast 1 (7/10) (3/2)
        ⟨true, Except.error (), false, 0, true⟩).success = false :=
  ⟨rfl, rfl, rfl⟩

/-- C6 amended: the intermediate natural-rate file is deleted before return on
the success path, the probe-yields-zero path, and the filter-ran-but-output-
checking path; it is left behind exactly when it was created (TTS succeeded)
and an exception was raised afterwards — during probing / duration parsing, or
from the filter-graph subprocess. -/
theorem C6_temp_cleanup_characterization (target lo hi : ℚ) (env : SynthEnv) :
    (generate_segment_voice_fast target lo hi env).tempLeft = true ↔
      env.ttsOk = true ∧
        (env.probe = Except.error () ∨
          ∃ d, env.probe = Except.ok d ∧ d ≠ 0 ∧ env.ffmpegRaises = true) := by
  obtain ⟨tts, probe, ffr, ex, outN⟩ := env
  cases tts
  · simp [generate_segment_voice_fast]
  · cases probe with
    | error u =>
      cases u
      simp [generate_segment_voice_fast]
    | ok d =>
      by_cases hd : d = 0
      · subst hd
        simp [generate_segment_voice_fast]
      · cases ffr <;> simp [generate_segment_voice_fast, hd]

/-- C9: when the synthesizer reaches the filter invocation (TTS succeeded, the
probe returned a non-zero duration, the filter subprocess did not raise), the
reported success is exactly `os.path.exists(output_file) and
os.path.getsize(output_file) > 0`; the filter run's exit code is never
examined — the whole outcome is identical for any two exit codes — so a
failed filter run (exit code 1 in `synthEnvC9`) that leaves a non-empty output
file is reported as a successful segment. -/
theorem C9_success_ignores_exit_code (target lo hi d : ℚ) (tts ffr outN : Bool)
    (e1 e2 : Int) (hd : d ≠ 0) :
    generate_segment_voice_fast target lo hi ⟨tts, Except.ok d, ffr, e1, outN⟩ =
      generate_segment_voice_fast target lo hi ⟨tts, Except.ok d, ffr, e2, outN⟩ ∧
    (tts = true → ffr = false →
      (generate_segment_voice_fast target lo hi
        ⟨tts, Except.ok d, ffr, e1, outN⟩).success = outN) ∧
    (generate_segment_voice_fast 1 (7/10) (3/2) synthEnvC9).success = true := by
  refine ⟨?_, ?_, rfl⟩
  · simp [generate_segment_voice_fast, hd]
  · intro htts hffr
    subst htts
    subst hffr
    simp [generate_segment_voice_fast, hd]

/-- C9 witness: at duration 1, two environments differing only in the filter
exit code (5 vs 7) give identical outcomes, and the outcome is success. -/
theorem C9_success_ignores_exit_code_witness :
    generate_segment_voice_fast 2 (7/10) (3/2) ⟨true, Except.ok 1, false, 5, true⟩ =
      generate_segment_voice_fast 2 (7/10) (3/2) ⟨true, Except.ok 1, false, 7, true⟩ ∧
    (generate_segment_voice_fast 2 (7/10) (3/2)
        ⟨true, Except.ok 1, false, 5, true⟩).success = true := by
  have h := C9_success_ignores_exit_code 2 (7/10) (3/2) 1 true false true 5 7 (by norm_num)
  exact ⟨h.1, h.2.1 rfl rfl⟩

/-- C2: whenever a batch run completes and persists its report, the report's
`success_count` equals the number of results with `success = true` and
`total_languages` equals the length of the results list. -/
theorem C2_report_counts (pairs : List (String × String)) (max_workers : Option Nat)
    (env : BatchEnv) (out : BatchOutcome)
    (h : batch_process_parallel pairs max_workers env = Except.ok out) :
    out.report.success_count = (out.report.results.filter (fun r => r.success)).length ∧
    out.report.total_languages = out.report.results.length := by
  unfold batch_process_parallel at h
  split at h
  · exact Except.noConfusion h
  · rw [Except.ok.injEq] at h
    subst h
    exact ⟨rfl, rfl⟩

/-- C2 witness: a concrete one-language batch whose report has
`success_count = 1` = number of successful results and `total_languages = 1`. -/
theorem C2_report_counts_witness :
    outC2.report.success_count = (outC2.report.results.filter (fun r => r.success)).length ∧
    outC2.report.total_languages = outC2.report.results.length :=
  C2_report_counts pairsC2 none batchEnvC2 outC2 rfl

/-- C3: the collection loop produces exactly one result record per submitted
pair (its length equals the pair count when the completion order is a
permutation of the pair indices, and it is pointwise the total function
`collectOne`, so no completion can abort the loop); a future whose await
raises (`Except.error`) is converted to a record with `success = false` and a
non-null error string; and the report's results list is exactly this
collection. -/
theorem C3_exception_becomes_result (pairs : List (String × String))
    (max_workers : Option Nat) (env : BatchEnv)
    (hperm : env.order.Perm (List.range pairs.length)) :
    (collectResults pairs env.order env.outcome).length = pairs.length ∧
    collectResults pairs env.order env.outcome = env.order.map (collectOne pairs env.outcome) ∧
    (∀ i e, env.outcome i = Except.error e →
      (collectOne pairs env.outcome i).success = false ∧
      (collectOne pairs env.outcome i).error = some e) ∧
    (∀ out, batch_process_parallel pairs max_workers env = Except.ok out →
      out.report.results = collectResults pairs env.order env.outcome) := by
  refine ⟨?_, rfl, ?_, ?_⟩
  · rw [collectResults, List.length_map, hperm.length_eq, List.length_range]
  · intro i e he
    simp [collectOne, he]
  · intro out h
    unfold batch_process_parallel at h
    split at h
    · exact Except.noConfusion h
    · rw [Except.ok.injEq] at h
      subst h
      rfl

/-- C3 witness: a one-pair batch whose only future raises "boom" still yields
one record, with `success = false` and error "boom". -/
theorem C3_exception_becomes_result_witness :
    (collectResults [("en", "a.srt")] batchEnvC3.order batchEnvC3.outcome).length = 1 ∧
    (collectOne [("en", "a.srt")] batchEnvC3.outcome 0).success = false ∧
    (collectOne [("en", "a.srt")] batchEnvC3.outcome 0).error = some "boom" := by
  have hperm : batchEnvC3.order.Perm (List.range 1) := by
    have hr : List.range 1 = [0] := rfl
    rw [hr]
    exact List.Perm.refl _
  have h := C3_exception_becomes_result [("en", "a.srt")] none batchEnvC3 hperm
  have h3 := h.2.2.1 0 "boom" rfl
  exact ⟨h.1, h3.1, h3.2⟩

/-- C4: whenever a Language Job's segment collection ends with zero successful
clips, the job returns the initial failure record (success false, null output
video) with the code's reason string 没有成功生成任何语音段落 — the source's
rendering of "no speech segments produced" — and the event trace contains no
Timeline Mixer invocation. -/
theorem C4_no_segments_failure (video_file lang_code : String) (subs : List SubEntry)
    (output_dir : String) (video_duration : ℚ) (env : JobEnv) (info : LangInfo)
    (hlang : lookupLang lang_code = some info)
    (hseg : collectSegments (output_dir ++ "/temp_" ++ lang_code) subs env.segOrder
      env.segOutcome = []) :
    process_single_language video_file lang_code subs output_dir video_duration env =
      Except.ok (⟨lang_code, info.name, false, none, none, 0, some "没有成功生成任何语音段落"⟩,
        (submittedIndices subs).map JobEvent.synthSubmit) ∧
    JobEvent.mixCall ∉ (submittedIndices subs).map JobEvent.synthSubmit := by
  constructor
  · simp [process_single_language, hlang, hseg]
  · simp

/-- C4 witness: a concrete English job whose only segment future returns
`False` fails with the no-segments reason and never calls the mixer. -/
theorem C4_no_segments_failure_witness :
    process_single_language "v.mp4" "en" [⟨"hi", 0, 1⟩] "out" 10 jobEnvC4 =
      Except.ok (⟨"en", "英语", false, none, none, 0, some "没有成功生成任何语音段落"⟩,
        [JobEvent.synthSubmit 0]) ∧
    JobEvent.mixCall ∉ [JobEvent.synthSubmit 0] := by
  have h := C4_no_segments_failure "v.mp4" "en" [⟨"hi", 0, 1⟩] "out" 10 jobEnvC4
    ⟨"英语", "🇺🇸", "en"⟩ rfl rfl
  exact ⟨h.1, h.2⟩

/-- C7 (code bug): the claim says a JobResult's `duration` is the elapsed wall
time of the whole job, but line 251 reassigns the Python variable
`start_time` inside the submission loop, shadowing the wall-clock start taken
at line 207.  Concretely: a job entering at wall-clock 1000 and finishing at
1010 with a single subtitle starting at 5s reports duration
`1010 - 5 = 1005`, not the elapsed `10`. -/
theorem C7_duration_uses_shadowed_start :
    process_single_language "v.mp4" "en" [⟨"hello", 5, 7⟩] "out" 10 jobEnvC7 =
      Except.ok (⟨"en", "英语", true, some "out/output_en.mp4", some "out/output_en.srt",
          1010 - 5, none⟩,
        [JobEvent.synthSubmit 0, JobEvent.mixCall, JobEvent.burnCall, JobEvent.muxCall]) ∧
    (1010 : ℚ) - 5 = 1005 ∧
    jobEnvC7.wallEnd - jobEnvC7.wallStart = 10 ∧
    (1005 : ℚ) ≠ 10 := by
  refine ⟨rfl, by norm_num, ?_, by norm_num⟩
  show (1010 : ℚ) - 1000 = 10
  norm_num

/-- Helper: when the submission loop stops at a missing language code, that
code is indeed unconfigured and belongs to the pair list. -/
theorem firstMissingLang_some_spec (pairs : List (String × String)) (lang : String)
    (h : firstMissingLang pairs = some lang) :
    lookupLang lang = none ∧ ∃ s, (lang, s) ∈ pairs := by
  induction pairs with
  | nil => simp [firstMissingLang] at h
  | cons p rest ih =>
    obtain ⟨l, s⟩ := p
    cases hl : lookupLang l with
    | none =>
      simp only [firstMissingLang, hl] at h
      obtain rfl : l = lang := by injection h
      exact ⟨hl, s, by simp⟩
    | some info =>
      simp only [firstMissingLang, hl] at h
      obtain ⟨h1, s', hs⟩ := ih h
      exact ⟨h1, s', List.mem_cons_of_mem _ hs⟩

/-- Helper: when the submission loop finds no missing code, every language
code of the pair list is configured. -/
theorem firstMissingLang_none_spec (pairs : List (String × String))
    (h : firstMissingLang pairs = none) :
    ∀ p ∈ pairs, (lookupLang p.1).isSome = true := by
  induction pairs with
  | nil =>
    intro p hp
    simp at hp
  | cons q rest ih =>
    obtain ⟨l, s⟩ := q
    cases hl : lookupLang l with
    | none => simp [firstMissingLang, hl] at h
    | some info =>
      simp only [firstMissingLang, hl] at h
      intro p hp
      rcases List.mem_cons.mp hp with rfl | hmem
      · simp [hl]
      · exact ih h p hmem

/-- C10: if any pair carries a language code outside the 16-entry
`LANGUAGE_CONFIG`, the submission loop hits it and the whole batch call
aborts with that code's lookup error — identically for every collection
environment, i.e. before any result is collected — and no report value
exists; conversely, when every code is configured the batch always completes
with a report. -/
theorem C10_unconfigured_language_aborts (pairs : List (String × String))
    (max_workers : Option Nat) (env env' : BatchEnv) :
    (∀ lang, firstMissingLang pairs = some lang →
      lookupLang lang = none ∧ (∃ s, (lang, s) ∈ pairs) ∧
      batch_process_parallel pairs max_workers env = Except.error lang ∧
      batch_process_parallel pairs max_workers env' = Except.error lang) ∧
    (firstMissingLang pairs = none →
      (∀ p ∈ pairs, (lookupLang p.1).isSome = true) ∧
      ∃ out, batch_process_parallel pairs max_workers env = Except.ok out) := by
  constructor
  · intro lang hl
    obtain ⟨h1, h2⟩ := firstMissingLang_some_spec pairs lang hl
    refine ⟨h1, h2, ?_, ?_⟩ <;>
      (unfold batch_process_parallel; rw [hl])
  · intro hn
    refine ⟨firstMissingLang_none_spec pairs hn, ?_⟩
    unfold batch_process_parallel
    rw [hn]
    exact ⟨_, rfl⟩

/-- C10 witness: the unconfigured code "xx" makes the batch call abort with a
lookup error for "xx". -/
theorem C10_unconfigured_language_aborts_witness :
    lookupLang "xx" = none ∧
    batch_process_parallel [("xx", "f.srt")] none batchEnvC10 = Except.error "xx" := by
  have h := (C10_unconfigured_language_aborts [("xx", "f.srt")] none batchEnvC10
    batchEnvC10).1 "xx" rfl
  exact ⟨h.1, h.2.2.1⟩

/-- C8 counterexample: for the two-language batch `pairsC8` run with
`maxWorkers = 2` in which both languages succeed with job duration 3 and the
batch wall time is 2, the orchestrator's advisory speed-up figure is
`(3 + 3) / 2 = 3`, while the claim's formula `min(maxWorkers, languageCount)
× 0.7` gives `7/5`; the two differ. -/
theorem C8_speedup_formula_counterexample :
    batch_process_parallel pairsC8 (some 2) batchEnvC8 = Except.ok outC8 ∧
    outC8.speedup = some 3 ∧
    specSpeedupEstimate 2 pairsC8.length = 7/5 ∧
    (3 : ℚ) ≠ 7/5 := by
  refine ⟨rfl, ?_, ?_, by norm_num⟩
  · show speedupFigure 2 (collectResults pairsC8 batchEnvC8.order batchEnvC8.outcome)
        batchEnvC8.totalTime = some 3
    rw [show collectResults pairsC8 batchEnvC8.order batchEnvC8.outcome = [resEnC8, resJaC8]
          from rfl,
        show batchEnvC8.totalTime = (2 : ℚ) from rfl]
    unfold speedupFigure
    rw [if_pos (by norm_num : 1 < 2), if_pos (by norm_num : (0 : ℚ) < 2)]
    rw [show sumSuccessDurations [resEnC8, resJaC8] = 0 + 3 + 3 from rfl]
    norm_num
  · show specSpeedupEstimate 2 2 = 7/5
    unfold specSpeedupEstimate
    norm_num [Nat.min_self]

/-- C8 amended: whenever a batch with explicit `maxWorkers > 1` completes
(regardless of how many languages succeeded), the orchestrator's advisory
speed-up figure equals the sum of the durations of the successful results
divided by the batch wall time (1 when the wall time is not positive); the
`min(maxWorkers, languageCount) × 0.7` estimate of the claim is instead the
figure shown by the GUI layer, where it is computed only when more than one
language was attempted. -/
theorem C8_speedup_actual_formula (pairs : List (String × String)) (mw : Nat)
    (env : BatchEnv) (out : BatchOutcome) (hmw : 1 < mw)
    (h : batch_process_parallel pairs (some mw) env = Except.ok out) :
    out.speedup = some (if 0 < out.report.total_time
        then sumSuccessDurations out.report.results / out.report.total_time else 1) ∧
    ∀ workers count : Nat, 1 < workers → 1 < count →
      guiSpeedup workers count = specSpeedupEstimate workers count := by
  constructor
  · unfold batch_process_parallel at h
    split at h
    · exact Except.noConfusion h
    · rw [Except.ok.injEq] at h
      subst h
      simp [speedupFigure, hmw]
  · intro workers count hw hc
    unfold guiSpeedup specSpeedupEstimate
    rw [if_pos ⟨hw, hc⟩]
    exact min_eq_left (mul_le_of_le_one_right (Nat.cast_nonneg _) (by norm_num))

/-- C8 amended witness: the concrete batch of `pairsC8` exhibits both parts. -/
theorem C8_speedup_actual_formula_witness :
    outC8.speedup = some (if 0 < outC8.report.total_time
        then sumSuccessDurations outC8.report.results / outC8.report.total_time else 1) ∧
    guiSpeedup 2 2 = specSpeedupEstimate 2 2 := by
  have h := C8_speedup_actual_formula pairsC8 2 batchEnvC8 outC8 (by norm_num) rfl
  exact ⟨h.1, h.2 2 2 (by norm_num) (by norm_num)⟩

/-- Helper: `natural / (natural / target) = target` for non-zero `natural`. -/
theorem natural_div_raw (natural target : ℚ) (hn : natural ≠ 0) :
    natural / (natural / target) = target := by
  rw [div_div_eq_mul_div, mul_comm, mul_div_assoc, div_self hn, mul_one]

/-- Helper: the absolute deviation of the upper clamp bound from 1. -/
theorem absHi : |(3 : ℚ)/2 - 1| = 1/2 := by
  rw [show (3 : ℚ)/2 - 1 = 1/2 by norm_num]
  exact abs_of_pos (by norm_num)

/-- Helper: the absolute deviation of the lower clamp bound from 1. -/
theorem absLo : |(7 : ℚ)/10 - 1| = 3/10 := by
  rw [show (7 : ℚ)/10 - 1 = -(3/10) by norm_num, abs_neg]
  exact abs_of_pos (by norm_num)

/-- Helper: at the upper clamp bound the rate change is applied, not `anull`. -/
theorem atempoHi : atempoOrAnull ((3 : ℚ)/2) = AFilter.atempo (3/2) := by
  have h : (1 : ℚ)/20 < |(3 : ℚ)/2 - 1| := by
    rw [absHi]
    norm_num
  unfold atempoOrAnull
  rw [if_pos h]

/-- Helper: at the lower clamp bound the rate change is applied, not `anull`. -/
theorem atempoLo : atempoOrAnull ((7 : ℚ)/10) = AFilter.atempo (7/10) := by
  have h : (1 : ℚ)/20 < |(7 : ℚ)/10 - 1| := by
    rw [absLo]
    norm_num
  unfold atempoOrAnull
  rw [if_pos h]

/-- Helper: the trim branch is reachable only when the raw ratio exceeded the
upper bound, so the clamped ratio is exactly `1.5`. -/
theorem clamp_eq_hi_of_trim (natural target : ℚ) (hn : 0 < natural) (ht : 0 < target)
    (h : target + 1/10 < natural / clampRatio (7/10) (3/2) (natural / target)) :
    clampRatio (7/10) (3/2) (natural / target) = 3/2 := by
  have hraw : 0 < natural / target := div_pos hn ht
  rcases le_or_lt (natural / target) (3/2) with hle | hgt
  · exfalso
    have hge : natural / target ≤ clampRatio (7/10) (3/2) (natural / target) := by
      unfold clampRatio
      rw [min_eq_left hle]
      exact le_max_right _ _
    have hpos : 0 < clampRatio (7/10) (3/2) (natural / target) := lt_of_lt_of_le hraw hge
    have hdiv : natural / clampRatio (7/10) (3/2) (natural / target) ≤
        natural / (natural / target) := by
      gcongr
    rw [natural_div_raw natural target (ne_of_gt hn)] at hdiv
    linarith
  · unfold clampRatio
    rw [min_eq_right (le_of_lt hgt), max_eq_right (by norm_num : (7 : ℚ)/10 ≤ 3/2)]

/-- Helper: the pad branch is reachable only when the raw ratio fell below the
lower bound, so the clamped ratio is exactly `0.7`. -/
theorem clamp_eq_lo_of_pad (natural target : ℚ) (hn : 0 < natural) (ht : 0 < target)
    (h : natural / clampRatio (7/10) (3/2) (natural / target) < target - 1/10) :
    clampRatio (7/10) (3/2) (natural / target) = 7/10 := by
  have hraw : 0 < natural / target := div_pos hn ht
  rcases lt_or_le (natural / target) (7/10) with hlt | hge
  · unfold clampRatio
    rw [min_eq_left (le_trans (le_of_lt hlt) (by norm_num)), max_eq_left (le_of_lt hlt)]
  · exfalso
    have hle : clampRatio (7/10) (3/2) (natural / target) ≤ natural / target := by
      unfold clampRatio
      rcases le_or_lt (natural / target) (3/2) with h1 | h1
      · rw [min_eq_left h1]
        exact max_le hge le_rfl
      · rw [min_eq_right (le_of_lt h1)]
        exact max_le hge (le_of_lt h1)
    have hpos : 0 < clampRatio (7/10) (3/2) (natural / target) := by
      unfold clampRatio
      exact lt_of_lt_of_le (by norm_num) (le_max_left _ _)
    have hdiv : natural / (natural / target) ≤
        natural / clampRatio (7/10) (3/2) (natural / target) := by
      gcongr
    rw [natural_div_raw natural target (ne_of_gt hn)] at hdiv
    linarith

/-- C1: for the default bounds `(0.7, 1.5)` and positive natural and target
durations, the synthesizer's speed ratio is the raw ratio clamped into
`[0.7, 1.5]`, and exactly one of three branches fires on the adjusted
duration with the 0.1 s tolerance: trim applies the rate change, loudness
normalization, a fade-out starting at `max 0 (target - 0.1)` of 0.1 s, and a
`-t target` truncation; pad applies the rate change and loudness
normalization and appends silence of length `target - adjusted`; the fit
branch applies the rate change only when the ratio deviates from 1 by more
than 0.05, then loudness normalization.  At the concrete input of the claim
(natural 1.0, target 0.5) the ratio 2.0 clamps to 1.5, the adjusted duration
2/3 exceeds 0.6, and the trim command is issued. -/
theorem C1_segment_branch_selection (natural target : ℚ) (hn : 0 < natural)
    (ht : 0 < target) :
    ((7 : ℚ)/10 ≤ clampRatio (7/10) (3/2) (natural / target) ∧
      clampRatio (7/10) (3/2) (natural / target) ≤ 3/2) ∧
    (target + 1/10 < natural / clampRatio (7/10) (3/2) (natural / target) →
      buildSynthCmd natural target (7/10) (3/2) =
        SynthCmd.trimCmd
          [AFilter.atempo (clampRatio (7/10) (3/2) (natural / target)), loudnormFilter,
           AFilter.afadeOut (max 0 (target - 1/10)) (1/10)] target) ∧
    (natural / clampRatio (7/10) (3/2) (natural / target) < target - 1/10 →
      buildSynthCmd natural target (7/10) (3/2) =
        SynthCmd.padCmd
          [AFilter.atempo (clampRatio (7/10) (3/2) (natural / target)), loudnormFilter]
          (target - natural / clampRatio (7/10) (3/2) (natural / target))) ∧
    (¬ target + 1/10 < natural / clampRatio (7/10) (3/2) (natural / target) →
      ¬ natural / clampRatio (7/10) (3/2) (natural / target) < target - 1/10 →
      buildSynthCmd natural target (7/10) (3/2) =
        SynthCmd.fitCmd
          (if 1/20 < |clampRatio (7/10) (3/2) (natural / target) - 1| then
            [AFilter.atempo (clampRatio (7/10) (3/2) (natural / target)), loudnormFilter]
          else [loudnormFilter])) ∧
    buildSynthCmd 1 (1/2) (7/10) (3/2) =
      SynthCmd.trimCmd [AFilter.atempo (3/2), loudnormFilter, AFilter.afadeOut (2/5) (1/10)]
        (1/2) := by
  refine ⟨⟨le_max_left _ _, max_le (by norm_num) (min_le_right _ _)⟩, ?_, ?_, ?_, ?_⟩
  · intro h
    have hc := clamp_eq_hi_of_trim natural target hn ht h
    unfold buildSynthCmd
    rw [if_pos h, hc, atempoHi]
  · intro h
    have hc := clamp_eq_lo_of_pad natural target hn ht h
    have h1 : ¬ target + 1/10 < natural / clampRatio (7/10) (3/2) (natural / target) := by
      intro h'
      linarith
    unfold buildSynthCmd
    rw [if_neg h1, if_pos h, hc, atempoLo]
  · intro h1 h2
    unfold buildSynthCmd
    rw [if_neg h1, if_neg h2]
    by_cases habs : (1 : ℚ)/20 < |clampRatio (7/10) (3/2) (natural / target) - 1|
    · rw [if_pos habs]
      have ha : atempoOrAnull (clampRatio (7/10) (3/2) (natural / target)) =
          AFilter.atempo (clampRatio (7/10) (3/2) (natural / target)) := by
        unfold atempoOrAnull
        rw [if_pos habs]
      rw [ha]
      simp
    · rw [if_neg habs]
      have ha : atempoOrAnull (clampRatio (7/10) (3/2) (natural / target)) =
          AFilter.anull := by
        unfold atempoOrAnull
        rw [if_neg habs]
      rw [ha]
      simp
  · have hc : clampRatio (7/10) (3/2) ((1 : ℚ) / (1/2)) = 3/2 := by
      unfold clampRatio
      norm_num [min_def, max_def]
    unfold buildSynthCmd
    rw [hc]
    rw [if_pos (show (1 : ℚ)/2 + 1/10 < 1 / (3/2) by norm_num)]
    rw [atempoHi]
    rw [show max (0 : ℚ) (1/2 - 1/10) = 2/5 by norm_num [max_def]]

/-- C1 witness: the concrete scenario of the claim (natural 1.0 s, target
0.5 s) lands in the trim branch with ratio 1.5 and a fade starting at 0.4 s. -/
theorem C1_segment_branch_selection_witness :
    buildSynthCmd 1 (1/2) (7/10) (3/2) =
      SynthCmd.trimCmd [AFilter.atempo (3/2), loudnormFilter, AFilter.afadeOut (2/5) (1/10)]
        (1/2) :=
  (C1_segment_branch_selection 1 (1/2) (by norm_num) (by norm_num)).2.2.2.2
